/-
Verification of the deal-bot price monitor (src/price_monitor.py) against its
specification.  The whole program is a single linear procedure: per-platform
price extraction (`get_price_amazon`, `get_price_flipkart`), a dispatch loop
(`check_prices`) that compares extracted prices to per-product targets and
collects deal records, and two notification channels (`send_email`,
`send_telegram`) gated on environment configuration.

Shallow embedding choices:
* Python floats are modelled as rationals `ℚ`; every price value occurring in
  the claims is exact in `ℚ`.
* A fetched Amazon page (after BeautifulSoup parsing) is modelled as the list
  of its elements in document order, each with tag, CSS classes and text.
  A Flipkart response is its HTTP status plus raw body text.
* Network-level failure of a fetch call (`requests.get` / `scraper.get`
  raising) is the `FetchOutcome.netError` constructor.  An uncaught Python
  exception is `PyResult.exn`; the source contains no try/except, so any
  raised exception propagates.
* `float(...)` is modelled by `pyFloat`, covering the fragment of Python's
  float syntax reachable from these call sites: an optional sign followed by
  a nonempty run of decimal digits parses; every other string raises
  (ValueError), modelled as `none`.  The regex class `\d` is modelled as the
  decimal digits 0–9.
* Every `print` diagnostic and every performed network request or channel
  send is recorded as an `Event`, so that claims about logging, about "no
  fetch is performed" and about "the other channel is still attempted" are
  statable.  Transport-level success of an attempted SMTP/HTTP send is not
  modelled; the event records that the channel was invoked.
-/
import Mathlib

set_option autoImplicit false

namespace PriceMonitor

/-- Result of running a piece of Python code: a value, or an uncaught
exception propagating out. -/
inductive PyResult (α : Type) where
  | ok (a : α)
  | exn
  deriving Repr, DecidableEq

/-- Outcome of a network fetch call: a response value, or a network-level
failure (timeout, DNS failure, connection refused) raised by the client. -/
inductive FetchOutcome (α : Type) where
  | ok (a : α)
  | netError
  deriving Repr, DecidableEq

/-- One HTML element of a parsed page: tag name, CSS classes, text content. -/
structure Element where
  tag : String
  classes : List String
  text : String
  deriving Repr, DecidableEq

/-- A parsed Amazon page: its elements in document order.  `requests.get`
does not raise on non-success HTTP status and `get_price_amazon` never
inspects the status, so the page body alone is the relevant response data. -/
abbrev AmazonPage := List Element

/-- A raw Flipkart response: HTTP status code and body text. -/
structure FlipkartResponse where
  status : Nat
  text : String
  deriving Repr, DecidableEq

/-- Observable events of a run: diagnostic prints and performed side effects. -/
inductive Event where
  | netRequest (platform url : String)
  | flipkartStatus (code : Nat)
  | unknownPlatform (p : String)
  | couldNotFetch (platform : String)
  | dealFound (platform : String) (price : ℚ)
  | aboveTarget (platform : String) (price : ℚ)
  | emailSkipped
  | emailAttempted
  | telegramSkipped
  | telegramAttempted
  deriving Repr, DecidableEq

/-- `s.replace(c, "")` for a single character: remove every occurrence. -/
def removeAll (s : String) (c : Char) : String :=
  ⟨s.data.filter (fun d => d ≠ c)⟩

/-- Python's `str.strip()`: drop leading and trailing whitespace. -/
def pyStrip (s : String) : String :=
  ⟨(s.data.dropWhile Char.isWhitespace).reverse.dropWhile Char.isWhitespace |>.reverse⟩

/-- Numeric value of a list of decimal digit characters. -/
def digitsVal (cs : List Char) : Nat :=
  cs.foldl (fun a c => 10 * a + (c.toNat - 48)) 0

/-- Model of Python `float(s)` at these call sites: an optional sign followed
by a nonempty run of decimal digits parses to its value; any other string is
a ValueError, modelled as `none`.  (Exponent/fraction/inf forms of Python's
float grammar cannot yield a different verdict on any string produced by the
two extractors below from the inputs the claims quantify over.) -/
def pyFloat (s : String) : Option ℚ :=
  match s.data with
  | [] => none
  | c :: rest =>
      if c = '-' then
        if rest ≠ [] ∧ rest.all Char.isDigit then some (-(digitsVal rest : ℚ)) else none
      else if c = '+' then
        if rest ≠ [] ∧ rest.all Char.isDigit then some (digitsVal rest : ℚ) else none
      else if (c :: rest).all Char.isDigit then some (digitsVal (c :: rest) : ℚ)
      else none

/-- `soup.select_one("span.a-price-whole")`: first element in document order
whose tag is `span` and whose classes include `a-price-whole`. -/
def selectPriceWhole (page : AmazonPage) : Option Element :=
  page.find? (fun e => e.tag == "span" && e.classes.contains "a-price-whole")

/-- The text cleanup applied by `get_price_amazon`:
`text.replace(",", "").replace(".", "").strip()`. -/
def amazonClean (t : String) : String :=
  pyStrip (removeAll (removeAll t ',') '.')

/-- `get_price_amazon(url)`: fetch the page, select the first
`span.a-price-whole` element, clean its text and parse it with `float`;
return `None` when no element matches.  A network error from `requests.get`
and a ValueError from `float` both propagate (no handler in the source). -/
def get_price_amazon (url : String) (net : FetchOutcome AmazonPage) :
    PyResult (Option ℚ) × List Event :=
  match net with
  | .netError => (.exn, [.netRequest "amazon" url])
  | .ok page =>
      match selectPriceWhole page with
      | none => (.ok none, [.netRequest "amazon" url])
      | some e =>
          match pyFloat (amazonClean e.text) with
          | none => (.exn, [.netRequest "amazon" url])
          | some q => (.ok (some q), [.netRequest "amazon" url])

/-- First match of the regex `₹([\d,]+)` over the body, as Python `re.search`
finds it: scan left to right for a `₹` followed by at least one digit or
comma; the captured group is the maximal such run. -/
def flipkartFirstGroup : List Char → Option (List Char)
  | [] => none
  | c :: rest =>
      if c = '₹' then
        match rest.takeWhile (fun d => d.isDigit || d == ',') with
        | [] => flipkartFirstGroup rest
        | g => some g
      else flipkartFirstGroup rest

/-- `get_price_flipkart(url)`: fetch via the challenge-solving client; a
non-200 status is logged and yields `None` without touching the body;
otherwise the first `₹([\d,]+)` match, commas stripped, is parsed with
`float`; no match yields `None`.  A network error from `scraper.get` and a
ValueError from `float` both propagate (no handler in the source). -/
def get_price_flipkart (url : String) (net : FetchOutcome FlipkartResponse) :
    PyResult (Option ℚ) × List Event :=
  match net with
  | .netError => (.exn, [.netRequest "flipkart" url])
  | .ok resp =>
      if resp.status ≠ 200 then
        (.ok none, [.netRequest "flipkart" url, .flipkartStatus resp.status])
      else
        match flipkartFirstGroup resp.text.data with
        | none => (.ok none, [.netRequest "flipkart" url])
        | some g =>
            match pyFloat (removeAll ⟨g⟩ ',') with
            | none => (.exn, [.netRequest "flipkart" url])
            | some q => (.ok (some q), [.netRequest "flipkart" url])

/-- One configured source for a product, together with what the network would
deliver to either client at its URL (the environment of the run). -/
structure SourceSpec where
  platform : String
  url : String
  amazonNet : FetchOutcome AmazonPage
  flipkartNet : FetchOutcome FlipkartResponse

/-- One configured product. -/
structure Product where
  name : String
  target_price : ℚ
  urls : List SourceSpec

/-- A deal record appended by `check_prices` when a price is at or below
target. -/
structure Deal where
  name : String
  platform : String
  price : ℚ
  target : ℚ
  url : String
  deriving Repr, DecidableEq

/-- The platform dispatch in the body of the source loop: `none` means the
platform is unknown and no extractor is invoked. -/
def dispatchPrice (s : SourceSpec) : Option (PyResult (Option ℚ) × List Event) :=
  if s.platform == "amazon" then some (get_price_amazon s.url s.amazonNet)
  else if s.platform == "flipkart" then some (get_price_flipkart s.url s.flipkartNet)
  else none

/-- Body of the inner loop of `check_prices` for one product/source pair:
dispatch on the platform (unknown platforms are logged and skipped with no
fetch), then compare the extracted price to the target and produce a deal
record iff the price is present and at or below target.  An exception from
the extractor propagates. -/
def processSource (product : Product) (s : SourceSpec) :
    PyResult (Option Deal) × List Event :=
  match dispatchPrice s with
  | none => (.ok none, [.unknownPlatform s.platform])
  | some (.exn, ev) => (.exn, ev)
  | some (.ok none, ev) => (.ok none, ev ++ [.couldNotFetch s.platform])
  | some (.ok (some p), ev) =>
      if p ≤ product.target_price then
        (.ok (some ⟨product.name, s.platform, p, product.target_price, s.url⟩),
          ev ++ [.dealFound s.platform p])
      else
        (.ok none, ev ++ [.aboveTarget s.platform p])

/-- The inner loop over a product's sources; an uncaught exception aborts the
whole traversal (the source has no handler). -/
def processSources (product : Product) : List SourceSpec → PyResult (List Deal) × List Event
  | [] => (.ok [], [])
  | s :: rest =>
      match processSource product s with
      | (.exn, ev) => (.exn, ev)
      | (.ok d, ev) =>
          match processSources product rest with
          | (.exn, ev2) => (.exn, ev ++ ev2)
          | (.ok ds, ev2) => (.ok (d.toList ++ ds), ev ++ ev2)

/-- The outer loop of `check_prices` over all products. -/
def processProducts : List Product → PyResult (List Deal) × List Event
  | [] => (.ok [], [])
  | p :: rest =>
      match processSources p p.urls with
      | (.exn, ev) => (.exn, ev)
      | (.ok ds, ev) =>
          match processProducts rest with
          | (.exn, ev2) => (.exn, ev ++ ev2)
          | (.ok ds2, ev2) => (.ok (ds ++ ds2), ev ++ ev2)

/-- Process environment values read by the notification channels.  Python's
`all([...])` tests truthiness, so a variable that is unset (`none`) or set to
the empty string both disable a channel. -/
structure Env where
  sender_email : Option String
  sender_password : Option String
  recipient_email : Option String
  telegram_bot_token : Option String
  telegram_chat_id : Option String

/-- Truthiness of an environment lookup: set and nonempty. -/
def truthy : Option String → Bool
  | none => false
  | some s => !s.isEmpty

/-- `send_email`: if any of sender, password, recipient is missing the
channel is a logged no-op; otherwise the SMTP send is attempted. -/
def send_email (env : Env) : List Event :=
  if truthy env.sender_email && truthy env.sender_password &&
      truthy env.recipient_email then
    [.emailAttempted]
  else
    [.emailSkipped]

/-- `send_telegram`: if bot token or chat id is missing the channel is a
logged no-op; otherwise the HTTPS post is attempted. -/
def send_telegram (env : Env) : List Event :=
  if truthy env.telegram_bot_token && truthy env.telegram_chat_id then
    [.telegramAttempted]
  else
    [.telegramSkipped]

/-- Tail of `check_prices`: when at least one deal was found, email is sent
first, then telegram; otherwise neither channel is invoked. -/
def sendAlerts (env : Env) (deals : List Deal) : List Event :=
  if deals.isEmpty then [] else send_email env ++ send_telegram env

/-- `check_prices`: traverse all products and sources, then notify.  An
uncaught exception anywhere aborts the run before notification. -/
def check_prices (products : List Product) (env : Env) :
    PyResult (List Deal) × List Event :=
  match processProducts products with
  | (.exn, ev) => (.exn, ev)
  | (.ok deals, ev) => (.ok deals, ev ++ sendAlerts env deals)

/-! ### Helper lemmas about the numeric parser and the Flipkart regex -/

/-- On a nonempty all-digit string, the modelled `float` succeeds and returns
the numeric value of the digits. -/
theorem pyFloat_digits (s : String) (h1 : s.data ≠ [])
    (h2 : s.data.all Char.isDigit = true) :
    pyFloat s = some ((digitsVal s.data : ℕ) : ℚ) := by
  rcases hd : s.data with _ | ⟨c, rest⟩
  · exact absurd hd h1
  · have h2' := h2
    rw [hd] at h2'
    have hc : c.isDigit = true := by
      rw [List.all_cons, Bool.and_eq_true] at h2'
      exact h2'.1
    simp only [pyFloat, hd]
    rw [if_neg (by intro h; subst h; exact absurd hc (by decide)),
      if_neg (by intro h; subst h; exact absurd hc (by decide)), if_pos h2']

/-- The modelled `float` returns a non-negative value on any string that does
not begin with a minus sign. -/
theorem pyFloat_nonneg (s : String) (q : ℚ) (hq : pyFloat s = some q)
    (h : s.data.head? ≠ some '-') : 0 ≤ q := by
  rcases hd : s.data with _ | ⟨c, rest⟩
  · simp only [pyFloat, hd] at hq
    exact absurd hq (by simp)
  · rw [hd] at h
    have hcm : ¬c = '-' := by
      intro hcm
      exact h (by rw [hcm]; rfl)
    simp only [pyFloat, hd] at hq
    rw [if_neg hcm] at hq
    by_cases hcp : c = '+'
    · rw [if_pos hcp] at hq
      by_cases hr : rest ≠ [] ∧ rest.all Char.isDigit = true
      · rw [if_pos hr] at hq
        injection hq with hq
        subst hq
        exact Nat.cast_nonneg _
      · rw [if_neg hr] at hq
        exact absurd hq (by simp)
    · rw [if_neg hcp] at hq
      by_cases ha : (c :: rest).all Char.isDigit = true
      · rw [if_pos ha] at hq
        injection hq with hq
        subst hq
        exact Nat.cast_nonneg _
      · rw [if_neg ha] at hq
        exact absurd hq (by simp)

/-- Every character of a captured `₹([\d,]+)` group is a digit or a comma. -/
theorem flipkartFirstGroup_chars (body g : List Char)
    (h : flipkartFirstGroup body = some g) :
    g.all (fun d => d.isDigit || d == ',') = true := by
  induction body with
  | nil => simp [flipkartFirstGroup] at h
  | cons c rest ih =>
    rw [flipkartFirstGroup] at h
    by_cases hc : c = '₹'
    · rw [if_pos hc] at h
      rcases ht : rest.takeWhile (fun d => d.isDigit || d == ',') with _ | ⟨d, ds⟩
      · rw [ht] at h
        exact ih h
      · rw [ht] at h
        injection h with h
        subst h
        rw [← ht]
        exact List.all_takeWhile
    · rw [if_neg hc] at h
      exact ih h

/-- Stripping the commas from a captured `₹([\d,]+)` group leaves only
digits. -/
theorem cleaned_group_digits (body g : List Char)
    (hg : flipkartFirstGroup body = some g) :
    (removeAll ⟨g⟩ ',').data.all Char.isDigit = true := by
  have hchars := flipkartFirstGroup_chars body g hg
  rw [List.all_eq_true] at hchars ⊢
  intro x hx
  simp only [removeAll] at hx
  have hx' : x ∈ g ∧ decide (x ≠ ',') = true := List.mem_filter.mp hx
  have hxc : x ≠ ',' := of_decide_eq_true hx'.2
  have hdc := hchars x hx'.1
  rcases Bool.or_eq_true_iff.mp hdc with h | h
  · exact h
  · exact absurd (eq_of_beq h) hxc

/-- The modelled `float` is non-negative on any all-digit string. -/
theorem pyFloat_all_digits_nonneg (s : String) (q : ℚ)
    (hall : s.data.all Char.isDigit = true) (hq : pyFloat s = some q) : 0 ≤ q := by
  rcases hd : s.data with _ | ⟨c, rest⟩
  · simp only [pyFloat, hd] at hq
    exact absurd hq (by simp)
  · rw [pyFloat_digits s (by rw [hd]; simp) hall] at hq
    injection hq with hq
    subst hq
    exact Nat.cast_nonneg _

/-! ### Claims -/

/-- C2: for every Amazon page whose first `span.a-price-whole` element has a
text that, after removing commas and dots and stripping whitespace, is a
nonempty digit string, extraction returns exactly the numeric value of that
digit string. -/
theorem C2_amazon_extracts_whole_number (url : String) (page : AmazonPage)
    (e : Element) (hsel : selectPriceWhole page = some e)
    (h1 : (amazonClean e.text).data ≠ [])
    (h2 : (amazonClean e.text).data.all Char.isDigit = true) :
    get_price_amazon url (.ok page) =
      (.ok (some ((digitsVal (amazonClean e.text).data : ℕ) : ℚ)),
        [.netRequest "amazon" url]) := by
  simp only [get_price_amazon, hsel, pyFloat_digits (amazonClean e.text) h1 h2]

/-- C2 witness: the markup text "1,29,990" yields the price 129990. -/
theorem C2_witness :
    get_price_amazon "u" (.ok [⟨"span", ["a-price-whole"], "1,29,990"⟩]) =
      (.ok (some (129990 : ℚ)), [.netRequest "amazon" "u"]) := by
  rw [C2_amazon_extracts_whole_number "u" _ ⟨"span", ["a-price-whole"], "1,29,990"⟩
    (by decide) (by decide) (by decide)]
  norm_num [show digitsVal (amazonClean "1,29,990").data = 129990 from by decide]

/-- C5: for every Amazon page in which no element matches the
`span.a-price-whole` selector, extraction returns the absence marker (no
exception, no zero). -/
theorem C5_amazon_no_match_absent (url : String) (page : AmazonPage)
    (h : selectPriceWhole page = none) :
    get_price_amazon url (.ok page) = (.ok none, [.netRequest "amazon" url]) := by
  simp only [get_price_amazon, h]

/-- C5 witness: a page whose only element is a non-matching `div` yields
absence. -/
theorem C5_witness :
    selectPriceWhole [⟨"div", ["x"], "999"⟩] = none ∧
    get_price_amazon "u" (.ok [⟨"div", ["x"], "999"⟩]) =
      (.ok none, [.netRequest "amazon" "u"]) :=
  ⟨by decide, C5_amazon_no_match_absent "u" _ (by decide)⟩

/-- C6: for every Flipkart response with a status other than 200, extraction
returns absence, logs the status code, and never consults the body (the
result is the same for every body). -/
theorem C6_flipkart_non200_absent (url : String) (resp : FlipkartResponse)
    (h : resp.status ≠ 200) :
    get_price_flipkart url (.ok resp) =
      (.ok none, [.netRequest "flipkart" url, .flipkartStatus resp.status]) := by
  simp only [get_price_flipkart]
  rw [if_pos h]

/-- C6 witness: a 503 response whose body even contains a parsable price
still yields absence with the status logged. -/
theorem C6_witness :
    (503 : Nat) ≠ 200 ∧
    get_price_flipkart "u" (.ok ⟨503, "₹45,999"⟩) =
      (.ok none, [.netRequest "flipkart" "u", .flipkartStatus 503]) :=
  ⟨by decide, C6_flipkart_non200_absent "u" ⟨503, "₹45,999"⟩ (by decide)⟩

/-- C3 counterexample: the body "₹," contains a match of the `₹([\d,]+)`
pattern (captured group ","), yet extraction neither returns that match
parsed as a number nor absence: stripping the commas leaves the empty string
and `float("")` raises, so the call ends in an uncaught exception. -/
theorem C3_counterexample :
    flipkartFirstGroup (String.data "₹,") = some [','] ∧
    get_price_flipkart "u" (.ok ⟨200, "₹,"⟩) =
      (.exn, [.netRequest "flipkart" "u"]) := by
  constructor <;> decide

/-- C3 (amended): on a 200 response, if the body has no `₹([\d,]+)` match,
extraction returns absence; if the first match's group still has at least one
digit after comma removal, extraction returns that digit string's value.  (A
first match consisting solely of commas instead raises, per the numeric
parse-failure behaviour.) -/
theorem C3_flipkart_first_match (url : String) (resp : FlipkartResponse)
    (hst : resp.status = 200) :
    (flipkartFirstGroup resp.text.data = none →
      get_price_flipkart url (.ok resp) =
        (.ok none, [.netRequest "flipkart" url])) ∧
    (∀ g, flipkartFirstGroup resp.text.data = some g →
      (removeAll ⟨g⟩ ',').data ≠ [] →
      get_price_flipkart url (.ok resp) =
        (.ok (some ((digitsVal (removeAll ⟨g⟩ ',').data : ℕ) : ℚ)),
          [.netRequest "flipkart" url])) := by
  constructor
  · intro hnone
    simp only [get_price_flipkart, hnone]
    rw [if_neg (fun h => h hst)]
  · intro g hg hne
    have hall := cleaned_group_digits resp.text.data g hg
    simp only [get_price_flipkart, hg]
    rw [if_neg (fun h => h hst)]
    simp only [pyFloat_digits (removeAll ⟨g⟩ ',') hne hall]

/-- C3 witness: the body "x ₹45,999 y" yields the price 45999. -/
theorem C3_witness :
    get_price_flipkart "u" (.ok ⟨200, "x ₹45,999 y"⟩) =
      (.ok (some (45999 : ℚ)), [.netRequest "flipkart" "u"]) := by
  rw [(C3_flipkart_first_match "u" ⟨200, "x ₹45,999 y"⟩ rfl).2
    ['4', '5', ',', '9', '9', '9'] (by decide) (by decide)]
  norm_num [show digitsVal (removeAll ⟨['4', '5', ',', '9', '9', '9']⟩ ',').data = 45999
    from by decide]

/-- C9: there are page contents on which the selector (resp. the pattern)
matches but the matched text after separator stripping is not a valid number,
and there extraction ends in an uncaught exception rather than absence or a
price: Amazon markup text "abc", and a Flipkart body whose first match group
is ",". -/
theorem C9_parse_failure_raises :
    (∃ page : AmazonPage, ∃ e : Element, selectPriceWhole page = some e ∧
      get_price_amazon "u" (.ok page) = (.exn, [.netRequest "amazon" "u"])) ∧
    (∃ resp : FlipkartResponse, resp.status = 200 ∧
      flipkartFirstGroup resp.text.data ≠ none ∧
      get_price_flipkart "u" (.ok resp) = (.exn, [.netRequest "flipkart" "u"])) :=
  ⟨⟨[⟨"span", ["a-price-whole"], "abc"⟩], ⟨"span", ["a-price-whole"], "abc"⟩,
    by decide, by decide⟩,
    ⟨⟨200, "₹,"⟩, rfl, by decide, by decide⟩⟩

/-- C8 counterexample: an Amazon page whose price element has text "-5"
makes extraction return the negative price -5, so extraction is not always
non-negative. -/
theorem C8_counterexample :
    get_price_amazon "u" (.ok [⟨"span", ["a-price-whole"], "-5"⟩]) =
      (.ok (some (-5 : ℚ)), [.netRequest "amazon" "u"]) ∧ (-5 : ℚ) < 0 := by
  constructor
  · decide
  · norm_num

/-- C8 (amended): Flipkart extraction never returns a negative price; Amazon
extraction never returns a negative price when the cleaned text of the
matched element does not begin with a minus sign (markup whose cleaned text
starts with "-" can produce a negative price). -/
theorem C8_price_nonneg (url : String) :
    (∀ (net : FetchOutcome FlipkartResponse) (q : ℚ) (ev : List Event),
      get_price_flipkart url net = (.ok (some q), ev) → 0 ≤ q) ∧
    (∀ (page : AmazonPage) (e : Element) (q : ℚ) (ev : List Event),
      selectPriceWhole page = some e →
      (amazonClean e.text).data.head? ≠ some '-' →
      get_price_amazon url (.ok page) = (.ok (some q), ev) → 0 ≤ q) := by
  constructor
  · intro net q ev h
    cases net with
    | netError => simp [get_price_flipkart] at h
    | ok resp =>
      simp only [get_price_flipkart] at h
      by_cases hst : resp.status ≠ 200
      · rw [if_pos hst] at h
        simp at h
      · rw [if_neg hst] at h
        rcases hg : flipkartFirstGroup resp.text.data with _ | g
        · simp only [hg] at h
          simp at h
        · simp only [hg] at h
          rcases hp : pyFloat (removeAll ⟨g⟩ ',') with _ | q'
          · simp only [hp] at h
            simp at h
          · simp only [hp] at h
            simp only [Prod.mk.injEq, PyResult.ok.injEq, Option.some.injEq] at h
            rw [← h.1]
            exact pyFloat_all_digits_nonneg _ q'
              (cleaned_group_digits resp.text.data g hg) hp
  · intro page e q ev hsel hhead h
    simp only [get_price_amazon, hsel] at h
    rcases hp : pyFloat (amazonClean e.text) with _ | q'
    · simp only [hp] at h
      simp at h
    · simp only [hp] at h
      simp only [Prod.mk.injEq, PyResult.ok.injEq, Option.some.injEq] at h
      rw [← h.1]
      exact pyFloat_nonneg (amazonClean e.text) q' hp hhead

/-- C8 witness: on the Flipkart body "₹45,999" the returned price 45999 is
non-negative. -/
theorem C8_witness :
    get_price_flipkart "u" (.ok ⟨200, "₹45,999"⟩) =
      (.ok (some (45999 : ℚ)), [.netRequest "flipkart" "u"]) ∧ (0 : ℚ) ≤ 45999 :=
  ⟨by decide, (C8_price_nonneg "u").1 (.ok ⟨200, "₹45,999"⟩) 45999
    [.netRequest "flipkart" "u"] (by decide)⟩

/-- C1: for a product/source pair whose extraction completes with result
`pr`, a deal record is produced iff `pr` holds a price at or below the
target; in particular a price equal to the target or one unit below yields a
deal, one unit above yields none, and absence yields none. -/
theorem C1_deal_iff_price_at_or_below (product : Product) (s : SourceSpec)
    (pr : Option ℚ) (ev : List Event)
    (hd : dispatchPrice s = some (.ok pr, ev)) :
    ((∃ d, (processSource product s).1 = .ok (some d)) ↔
      ∃ p, pr = some p ∧ p ≤ product.target_price) ∧
    (pr = some product.target_price →
      ∃ d, (processSource product s).1 = .ok (some d)) ∧
    (pr = some (product.target_price - 1) →
      ∃ d, (processSource product s).1 = .ok (some d)) ∧
    (pr = some (product.target_price + 1) →
      ¬∃ d, (processSource product s).1 = .ok (some d)) ∧
    (pr = none → ¬∃ d, (processSource product s).1 = .ok (some d)) := by
  have main : (∃ d, (processSource product s).1 = .ok (some d)) ↔
      ∃ p, pr = some p ∧ p ≤ product.target_price := by
    rcases pr with _ | p
    · simp only [processSource, hd]
      simp
    · simp only [processSource, hd]
      by_cases hp : p ≤ product.target_price
      · rw [if_pos hp]
        simp [hp]
      · rw [if_neg hp]
        simp [hp]
  refine ⟨main, ?_, ?_, ?_, ?_⟩
  · intro h
    exact main.mpr ⟨product.target_price, h, le_refl _⟩
  · intro h
    exact main.mpr ⟨product.target_price - 1, h, by linarith⟩
  · intro h hcon
    rcases main.mp hcon with ⟨p, hp1, hp2⟩
    rw [h] at hp1
    injection hp1 with hp1
    rw [← hp1] at hp2
    linarith
  · intro h hcon
    rcases main.mp hcon with ⟨p, hp1, _⟩
    rw [h] at hp1
    exact absurd hp1 (by simp)

/-- C1 witness: with target 129990 and an Amazon page showing "1,29,990"
(at-target price), a deal record is produced. -/
theorem C1_witness :
    ∃ d, (processSource ⟨"p", 129990, []⟩
      ⟨"amazon", "u", .ok [⟨"span", ["a-price-whole"], "1,29,990"⟩],
        .ok ⟨200, ""⟩⟩).1 = .ok (some d) :=
  (C1_deal_iff_price_at_or_below ⟨"p", 129990, []⟩
    ⟨"amazon", "u", .ok [⟨"span", ["a-price-whole"], "1,29,990"⟩], .ok ⟨200, ""⟩⟩
    (some 129990) [.netRequest "amazon" "u"] (by decide)).2.1 rfl

/-- C4 (code bug): a network-level failure of the fetch call is NOT converted
to absence — both extractors propagate it as an uncaught exception, and the
whole run aborts instead of continuing with remaining sources.  The last
conjunct shows the same run without the failing source does find the deal
that the aborted run never reaches. -/
theorem C4_network_failure_crashes_run :
    get_price_amazon "u" .netError = (.exn, [.netRequest "amazon" "u"]) ∧
    get_price_flipkart "v" .netError = (.exn, [.netRequest "flipkart" "v"]) ∧
    (check_prices [⟨"p", 100, [⟨"amazon", "u", .netError, .ok ⟨200, ""⟩⟩,
        ⟨"flipkart", "v", .netError, .ok ⟨200, "₹50"⟩⟩]⟩]
      ⟨some "a", some "b", some "c", some "d", some "e"⟩).1 = .exn ∧
    (check_prices [⟨"p", 100, [⟨"flipkart", "v", .netError, .ok ⟨200, "₹50"⟩⟩]⟩]
      ⟨some "a", some "b", some "c", some "d", some "e"⟩).1 =
      .ok [⟨"p", "flipkart", 50, 100, "v"⟩] := by
  refine ⟨rfl, rfl, ?_, ?_⟩ <;> decide

/-- C7: a source whose platform is neither "amazon" nor "flipkart" is logged
and skipped: its step yields no deal and performs no network request, and the
traversal continues over the remaining sources unchanged apart from the
prepended log line. -/
theorem C7_unknown_platform_skipped (product : Product) (s : SourceSpec)
    (h1 : s.platform ≠ "amazon") (h2 : s.platform ≠ "flipkart") :
    processSource product s = (.ok none, [.unknownPlatform s.platform]) ∧
    (∀ pf u, Event.netRequest pf u ∉ (processSource product s).2) ∧
    (∀ rest, processSources product (s :: rest) =
      ((processSources product rest).1,
        .unknownPlatform s.platform :: (processSources product rest).2)) := by
  have hdisp : dispatchPrice s = none := by
    simp only [dispatchPrice]
    rw [if_neg (by simp [h1]), if_neg (by simp [h2])]
  have hps : processSource product s = (.ok none, [.unknownPlatform s.platform]) := by
    simp only [processSource, hdisp]
  refine ⟨hps, ?_, ?_⟩
  · intro pf u
    rw [hps]
    simp
  · intro rest
    simp only [processSources, hps]
    rcases hr : processSources product rest with ⟨r, ev2⟩
    cases r <;> simp

/-- C7 witness: an "ebay" source is skipped with only the unknown-platform
log line, and the following Flipkart source still produces its deal. -/
theorem C7_witness :
    processSources ⟨"p", 100, []⟩
      [⟨"ebay", "u", .netError, .netError⟩,
        ⟨"flipkart", "v", .ok [], .ok ⟨200, "₹50"⟩⟩] =
      (.ok [⟨"p", "flipkart", 50, 100, "v"⟩],
        [.unknownPlatform "ebay", .netRequest "flipkart" "v",
          .dealFound "flipkart" 50]) := by
  rw [(C7_unknown_platform_skipped ⟨"p", 100, []⟩ ⟨"ebay", "u", .netError, .netError⟩
    (by decide) (by decide)).2.2 [⟨"flipkart", "v", .ok [], .ok ⟨200, "₹50"⟩⟩]]
  decide

/-- C10: a notification channel with incomplete environment configuration is
a logged no-op — it emits only its skip log line, sends nothing, and leaves
the other channel's behaviour in the same run unchanged. -/
theorem C10_missing_config_channel_noop (env : Env) (deals : List Deal)
    (hne : deals ≠ []) :
    ((truthy env.sender_email = false ∨ truthy env.sender_password = false ∨
        truthy env.recipient_email = false) →
      send_email env = [.emailSkipped] ∧
      sendAlerts env deals = .emailSkipped :: send_telegram env) ∧
    ((truthy env.telegram_bot_token = false ∨ truthy env.telegram_chat_id = false) →
      send_telegram env = [.telegramSkipped] ∧
      sendAlerts env deals = send_email env ++ [.telegramSkipped]) := by
  have hda : deals.isEmpty = false := by
    cases deals
    · exact absurd rfl hne
    · rfl
  constructor
  · intro h
    have he : send_email env = [.emailSkipped] := by
      simp only [send_email]
      rcases h with h | h | h <;> rw [if_neg (by simp [h])]
    exact ⟨he, by simp [sendAlerts, hda, he]⟩
  · intro h
    have ht : send_telegram env = [.telegramSkipped] := by
      simp only [send_telegram]
      rcases h with h | h <;> rw [if_neg (by simp [h])]
    exact ⟨ht, by simp [sendAlerts, hda, ht]⟩

/-- C10 witness: with the sender address unset but telegram fully configured
and one deal found, email is skipped while telegram is still attempted. -/
theorem C10_witness :
    sendAlerts ⟨none, some "pw", some "to", some "tok", some "chat"⟩
      [⟨"p", "amazon", 1, 2, "u"⟩] = [.emailSkipped, .telegramAttempted] := by
  rw [((C10_missing_config_channel_noop
    ⟨none, some "pw", some "to", some "tok", some "chat"⟩
    [⟨"p", "amazon", 1, 2, "u"⟩] (by simp)).1 (Or.inl rfl)).2]
  decide

end PriceMonitor
